import Mathlib

/-!
Verification of the renewables-LCOE engine.

The repository's core (`model.py` / `schema.py`) defines a validated
assumptions record, a per-year cashflow generator, a DSCR debt-sizing
solver and an equity-IRR tariff solver whose fixed point is the LCOE.
Only the notebook that calls these functions ships in the source tree,
so the engine itself is modelled here from the specification, with the
notebook's captured outputs used to pin down construction-time behavior.
All arithmetic is exact rational arithmetic.
-/

set_option maxRecDepth 100000

/-- Modelled from the spec: `schema.py` (absent from the source tree) defines a
pydantic `SolarPVAssumptions` record.  Field list and ordering follow the
notebook's printed repr, which shows `capital_cost` populated at construction
and `debt_pct_of_capital_cost`, `equity_pct_of_capital_cost`, `wacc`,
`tax_adjusted_WACC` as `None` until a solver resolves them. -/
structure SolarPVAssumptions where
  capacity_mw : ℚ
  capacity_factor : ℚ
  capital_expenditure_per_mw : ℚ
  o_m_cost_pct_of_capital_cost : ℚ
  debt_pct_of_capital_cost : Option ℚ
  equity_pct_of_capital_cost : Option ℚ
  cost_of_debt : ℚ
  cost_of_equity : ℚ
  tax_rate : ℚ
  project_lifetime_years : ℕ
  dcsr : ℚ
  capital_cost : ℚ
  tax_adjusted_WACC : Option ℚ
  wacc : Option ℚ
deriving Repr, DecidableEq

/-- Errors surfaced by the engine: a `ValidationError` naming the offending
field, or a `NonConvergenceError` carrying the last residual and the
iteration budget that was exhausted. -/
inductive ModelError where
  | validation (field : String)
  | nonConvergence (residual : ℚ) (iterations : ℕ)
deriving Repr, DecidableEq

/-- An optional capital-structure fraction is in range when absent or in
`[0, 1]`. -/
def fractionInUnit (x : Option ℚ) : Bool :=
  match x with
  | some d => decide (0 ≤ d ∧ d ≤ 1)
  | none => true

/-- A fully specified capital structure must sum to 1 within 1e-6. -/
def splitSumsToOne (debt_pct equity_pct : Option ℚ) : Bool :=
  match debt_pct, equity_pct with
  | some d, some e => decide (|d + e - 1| ≤ 1/1000000)
  | _, _ => true

/-- Derivation of a single missing capital-structure field: the given
fraction is kept and the missing one becomes `1 - given`; fully given or
fully absent structures pass through unchanged. -/
def deriveStructure : Option ℚ → Option ℚ → Option ℚ × Option ℚ
  | some d, none => (some d, some (1 - d))
  | none, some e => (some (1 - e), some e)
  | some d, some e => (some d, some e)
  | none, none => (none, none)

/-- Modelled from the spec: validation contract of the `schema.py` assumptions
model.  Checks every numeric range of the data model, cross-validates a fully
specified capital structure (tolerance 1e-6), derives a single missing
capital-structure field as `1 - given`, leaves both unset when neither is
supplied, and populates `capital_cost = capacity_mw * capital_expenditure_per_mw`
at construction time. -/
def mkAssumptions (capacity_mw capacity_factor capital_expenditure_per_mw
    o_m_cost_pct_of_capital_cost : ℚ)
    (debt_pct equity_pct : Option ℚ)
    (cost_of_debt cost_of_equity tax_rate : ℚ)
    (project_lifetime_years : ℕ) (dcsr : ℚ) :
    Except ModelError SolarPVAssumptions :=
  if ¬ (0 < capacity_mw) then .error (.validation "capacity_mw")
  else if ¬ (0 < capacity_factor ∧ capacity_factor ≤ 1) then
    .error (.validation "capacity_factor")
  else if ¬ (0 < capital_expenditure_per_mw) then
    .error (.validation "capital_expenditure_per_mw")
  else if ¬ (0 ≤ o_m_cost_pct_of_capital_cost) then
    .error (.validation "o_m_cost_pct_of_capital_cost")
  else if fractionInUnit debt_pct = false then
    .error (.validation "debt_pct_of_capital_cost")
  else if fractionInUnit equity_pct = false then
    .error (.validation "equity_pct_of_capital_cost")
  else if splitSumsToOne debt_pct equity_pct = false then
    .error (.validation "debt_equity_split")
  else if ¬ (0 ≤ cost_of_debt) then .error (.validation "cost_of_debt")
  else if ¬ (0 ≤ cost_of_equity) then .error (.validation "cost_of_equity")
  else if ¬ (0 ≤ tax_rate ∧ tax_rate < 1) then .error (.validation "tax_rate")
  else if ¬ (0 < project_lifetime_years) then
    .error (.validation "project_lifetime_years")
  else if ¬ (0 < dcsr) then .error (.validation "dcsr")
  else
    let structurePair : Option ℚ × Option ℚ :=
      deriveStructure debt_pct equity_pct
    .ok {
      capacity_mw := capacity_mw
      capacity_factor := capacity_factor
      capital_expenditure_per_mw := capital_expenditure_per_mw
      o_m_cost_pct_of_capital_cost := o_m_cost_pct_of_capital_cost
      debt_pct_of_capital_cost := structurePair.1
      equity_pct_of_capital_cost := structurePair.2
      cost_of_debt := cost_of_debt
      cost_of_equity := cost_of_equity
      tax_rate := tax_rate
      project_lifetime_years := project_lifetime_years
      dcsr := dcsr
      capital_cost := capacity_mw * capital_expenditure_per_mw
      tax_adjusted_WACC := none
      wacc := none }

/-- Modelled from the spec: one row of the cashflow schedule (`model.py` is
absent), holding the per-year quantities listed in the data model. -/
structure YearRow where
  energy_output : ℚ
  revenue : ℚ
  operating_cost : ℚ
  ebitda : ℚ
  interest : ℚ
  principal : ℚ
  debt_balance : ℚ
  taxable_income : ℚ
  tax : ℚ
  equity_cashflow : ℚ
deriving Repr, DecidableEq

/-- Level-payment (annuity) factor: the constant yearly payment per unit of
initial principal, at rate `r` over `n` years. -/
def annuityFactor (r : ℚ) (n : ℕ) : ℚ :=
  if r = 0 then 1 / n else r * (1 + r) ^ n / ((1 + r) ^ n - 1)

/-- Remaining principal after `t` payments of a level-payment amortization of
initial principal `D0` at rate `r` over `n` years. -/
def debtBalance (D0 r : ℚ) (n t : ℕ) : ℚ :=
  if r = 0 then D0 * ((n : ℚ) - t) / n
  else D0 * ((1 + r) ^ n - (1 + r) ^ t) / ((1 + r) ^ n - 1)

/-- Annual energy output: `capacity_mw * capacity_factor * 8760` MWh, constant
across years. -/
def energyOutput (a : SolarPVAssumptions) : ℚ :=
  a.capacity_mw * a.capacity_factor * 8760

/-- Constant yearly operating cost:
`o_m_cost_pct_of_capital_cost * capital_cost`. -/
def opexOf (a : SolarPVAssumptions) : ℚ :=
  a.o_m_cost_pct_of_capital_cost * a.capital_cost

/-- Yearly EBITDA at a given tariff: revenue minus operating cost, constant
across the operating years. -/
def ebitdaOf (a : SolarPVAssumptions) (tariff : ℚ) : ℚ :=
  energyOutput a * tariff - opexOf a

/-- Interest paid in operating year `j + 1`: the debt rate on the balance
outstanding after `j` payments. -/
def interestOf (a : SolarPVAssumptions) (debt_fraction : ℚ) (j : ℕ) : ℚ :=
  a.cost_of_debt * debtBalance (debt_fraction * a.capital_cost) a.cost_of_debt
    a.project_lifetime_years j

/-- Principal repaid in operating year `j + 1`. -/
def principalOf (a : SolarPVAssumptions) (debt_fraction : ℚ) (j : ℕ) : ℚ :=
  debtBalance (debt_fraction * a.capital_cost) a.cost_of_debt
      a.project_lifetime_years j -
    debtBalance (debt_fraction * a.capital_cost) a.cost_of_debt
      a.project_lifetime_years (j + 1)

/-- Taxable income of operating year `j + 1`: EBITDA minus interest minus
straight-line depreciation. -/
def taxableOf (a : SolarPVAssumptions) (tariff debt_fraction : ℚ) (j : ℕ) : ℚ :=
  ebitdaOf a tariff - interestOf a debt_fraction j -
    a.capital_cost / a.project_lifetime_years

/-- Tax of operating year `j + 1`: positive taxable income times the tax
rate; losses yield zero tax and are not carried forward. -/
def taxOf (a : SolarPVAssumptions) (tariff debt_fraction : ℚ) (j : ℕ) : ℚ :=
  (if taxableOf a tariff debt_fraction j ≤ 0 then 0
    else taxableOf a tariff debt_fraction j) * a.tax_rate

/-- Modelled from the spec: the cashflow generator of `model.py` (absent), one
year at a time.  Year 0 is the equity outflow `-(capital_cost * (1 - debt_fraction))`;
year `t+1` holds revenue at the given tariff, constant opex, annuity debt
service, straight-line depreciation, tax on positive taxable income only (no
loss carryforward), and the post-tax equity cashflow. -/
def yearRow (a : SolarPVAssumptions) (tariff debt_fraction : ℚ) : ℕ → YearRow
  | 0 =>
    { energy_output := 0, revenue := 0, operating_cost := 0, ebitda := 0
      interest := 0, principal := 0
      debt_balance := debt_fraction * a.capital_cost
      taxable_income := 0, tax := 0
      equity_cashflow := -(a.capital_cost * (1 - debt_fraction)) }
  | t + 1 =>
    { energy_output := energyOutput a, revenue := energyOutput a * tariff
      operating_cost := opexOf a, ebitda := ebitdaOf a tariff
      interest := interestOf a debt_fraction t
      principal := principalOf a debt_fraction t
      debt_balance := debtBalance (debt_fraction * a.capital_cost)
        a.cost_of_debt a.project_lifetime_years (t + 1)
      taxable_income := taxableOf a tariff debt_fraction t
      tax := taxOf a tariff debt_fraction t
      equity_cashflow := ebitdaOf a tariff - interestOf a debt_fraction t -
        principalOf a debt_fraction t - taxOf a tariff debt_fraction t }

/-- Modelled from the spec: `generate(assumptions, tariff, debt_fraction)`,
the full schedule of `project_lifetime_years + 1` rows including the year-0
equity outflow. -/
def schedule (a : SolarPVAssumptions) (tariff debt_fraction : ℚ) : List YearRow :=
  (List.range (a.project_lifetime_years + 1)).map (yearRow a tariff debt_fraction)

/-- Total debt service of a schedule row. -/
def debtService (r : YearRow) : ℚ := r.interest + r.principal

/-- DSCR of each year in which debt is outstanding:
`EBITDA / (interest + principal)` for rows with positive debt service. -/
def dscrValues (rows : List YearRow) : List ℚ :=
  rows.filterMap fun r =>
    if 0 < debtService r then some (r.ebitda / debtService r) else none

/-- Minimum annual DSCR over the years with outstanding debt; `none` when no
year carries debt service. -/
def minDSCR (rows : List YearRow) : Option ℚ :=
  (dscrValues rows).min?

/-- Explicit numeric configuration of the solvers: iteration budget,
convergence tolerances, and search brackets.  The spec directs that these be
explicit configuration on the solver component rather than hidden constants. -/
structure SolverConfig where
  maxIter : ℕ
  tariffTol : ℚ
  dscrTol : ℚ
  irrTol : ℚ
  irrLo : ℚ
  irrHi : ℚ
  tariffHi : ℚ
deriving Repr, DecidableEq

/-- Default solver configuration: 100 iterations; tariff-solver tolerance
1e-6 in IRR units as in the spec, DSCR-solver tolerance 1e-8 (tight enough
not to disturb the outer tariff solve); IRR
bracketed in (-0.99, 10); tariff search capped at 100 per MWh. -/
def defaultCfg : SolverConfig :=
  { maxIter := 100, tariffTol := 1/1000000, dscrTol := 1/100000000
    irrTol := 1/1000000, irrLo := -(99/100), irrHi := 10, tariffHi := 100 }

/-- Modelled from the spec: the derivative-free bracketing root finder shared
by both solvers of `model.py` (absent).  `inc` records whether the residual is
increasing (`true`) or decreasing (`false`) in its argument; a midpoint is
accepted as soon as its residual is within `tol`, and exhausting the fuel
fails with a `NonConvergenceError` carrying the last residual. -/
def bisectE (f : ℚ → Except ModelError ℚ) (inc : Bool) (tol : ℚ) :
    ℕ → ℚ → ℚ → Except ModelError ℚ
  | 0, lo, hi =>
    match f ((lo + hi) / 2) with
    | .error e => .error e
    | .ok v => .error (.nonConvergence v 0)
  | fuel + 1, lo, hi =>
    match f ((lo + hi) / 2) with
    | .error e => .error e
    | .ok v =>
      if |v| ≤ tol then .ok ((lo + hi) / 2)
      else if 0 < v then
        if inc then bisectE f inc tol fuel lo ((lo + hi) / 2)
        else bisectE f inc tol fuel ((lo + hi) / 2) hi
      else
        if inc then bisectE f inc tol fuel ((lo + hi) / 2) hi
        else bisectE f inc tol fuel lo ((lo + hi) / 2)

/-- The post-tax equity cashflow of year `t`, as generated by the cashflow
model. -/
def equityCF (a : SolarPVAssumptions) (tariff debt_fraction : ℚ) (t : ℕ) : ℚ :=
  (yearRow a tariff debt_fraction t).equity_cashflow

/-- Net present value at rate `r` of the cashflow sequence `f 0, f 1, ...`
over `m` entries. -/
def npvF (r : ℚ) (f : ℕ → ℚ) (m : ℕ) : ℚ :=
  ∑ k ∈ Finset.range m, f k * ((1 + r)⁻¹) ^ k

/-- Modelled from the spec: the post-tax equity IRR of `model.py` (absent),
computed as the standard net-present-value root over the equity cashflow
sequence, by the shared bracketing root finder (NPV decreasing in the rate). -/
def computeIRR (a : SolarPVAssumptions) (tariff debt_fraction : ℚ)
    (cfg : SolverConfig) : Except ModelError ℚ :=
  bisectE
    (fun rate =>
      .ok (npvF rate (equityCF a tariff debt_fraction)
        (a.project_lifetime_years + 1)))
    false cfg.irrTol cfg.maxIter cfg.irrLo cfg.irrHi

/-- Residual of the debt-sizing solver: minimum annual DSCR of the schedule at
the candidate debt fraction, minus the target `dcsr`. -/
def dscrResidual (a : SolarPVAssumptions) (tariff : ℚ) (cand : ℚ) :
    Except ModelError ℚ :=
  match minDSCR (schedule a tariff cand) with
  | some m => .ok (m - a.dcsr)
  | none => .error (.validation "dcsr")

/-- Modelled from the spec: the DSCR debt-sizing solver of `model.py`
(absent).  If the target DSCR is still met with margin at `debt_fraction = 1`
the result is capped at 1; otherwise the debt fraction is root-found in
`[0, 1]` (the residual is decreasing in the debt fraction). -/
def solveDebtFraction (a : SolarPVAssumptions) (tariff : ℚ)
    (cfg : SolverConfig) : Except ModelError ℚ :=
  match minDSCR (schedule a tariff 1) with
  | some m1 =>
    if a.dcsr ≤ m1 then .ok 1
    else bisectE (dscrResidual a tariff) false cfg.dscrTol cfg.maxIter 0 1
  | none => .error (.validation "capital_cost")

/-- The tax-adjusted weighted average cost of capital. -/
def taxAdjustedWACC (a : SolarPVAssumptions) (debt_fraction : ℚ) : ℚ :=
  debt_fraction * a.cost_of_debt * (1 - a.tax_rate) +
    (1 - debt_fraction) * a.cost_of_equity

/-- The plain weighted average cost of capital. -/
def waccOf (a : SolarPVAssumptions) (debt_fraction : ℚ) : ℚ :=
  debt_fraction * a.cost_of_debt + (1 - debt_fraction) * a.cost_of_equity

/-- Modelled from the spec: resolution of the optional capital structure
ahead of a schedule build.  A given debt fraction is used as is, a given
equity fraction yields `1 - equity`, and an unset structure invokes the
debt-sizing solver at the current tariff. -/
def resolveDebtFraction (a : SolarPVAssumptions) (tariff : ℚ)
    (cfg : SolverConfig) : Except ModelError ℚ :=
  match a.debt_pct_of_capital_cost, a.equity_pct_of_capital_cost with
  | some d, _ => .ok d
  | none, some e => .ok (1 - e)
  | none, none => solveDebtFraction a tariff cfg

/-- The fresh adjusted-assumptions record returned to the caller: a copy of
the input with the capital structure and both WACC fields populated. -/
def adjustedAssumptions (a : SolarPVAssumptions) (debt_fraction : ℚ) :
    SolarPVAssumptions :=
  { a with
    debt_pct_of_capital_cost := some debt_fraction
    equity_pct_of_capital_cost := some (1 - debt_fraction)
    wacc := some (waccOf a debt_fraction)
    tax_adjusted_WACC := some (taxAdjustedWACC a debt_fraction) }

/-- Modelled from the spec: `calculate_cashflow_for_renewable_project` of
`model.py` (absent; the notebook shows its signature and return tuple).  At a
given tariff it resolves the capital structure (running the debt-sizing solver
when it is unset), builds the schedule, computes the post-tax equity IRR, and
returns `(schedule, post_tax_equity_irr, tariff, adjusted_assumptions)`; the
input record is not modified. -/
def calculate_cashflow_for_renewable_project (a : SolarPVAssumptions)
    (tariff : ℚ) (cfg : SolverConfig) :
    Except ModelError (List YearRow × ℚ × ℚ × SolarPVAssumptions) :=
  match resolveDebtFraction a tariff cfg with
  | .error e => .error e
  | .ok debt_fraction =>
    match computeIRR a tariff debt_fraction cfg with
    | .error e => .error e
    | .ok post_tax_equity_irr =>
      .ok (schedule a tariff debt_fraction, post_tax_equity_irr, tariff,
        adjustedAssumptions a debt_fraction)

/-- Break-even tariff: the tariff at which revenue equals operating cost,
used to seed the tariff search. -/
def breakEvenTariff (a : SolarPVAssumptions) : ℚ :=
  a.o_m_cost_pct_of_capital_cost * a.capital_cost / energyOutput a

/-- Residual of the tariff solver: post-tax equity IRR at the candidate
tariff minus the cost of equity. -/
def tariffResidual (a : SolarPVAssumptions) (cfg : SolverConfig) (t : ℚ) :
    Except ModelError ℚ :=
  (calculate_cashflow_for_renewable_project a t cfg).map
    (fun r => r.2.1 - a.cost_of_equity)

/-- Modelled from the spec: `calculate_lcoe` of `model.py` (absent).  The
breakeven tariff at which the post-tax equity IRR equals the cost of equity is
root-found between the break-even-EBITDA seed and the configured upper bound;
the converged tariff is the LCOE. -/
def calculate_lcoe (a : SolarPVAssumptions) (cfg : SolverConfig) :
    Except ModelError ℚ :=
  bisectE (tariffResidual a cfg) true cfg.tariffTol cfg.maxIter
    (breakEvenTariff a) cfg.tariffHi

deriving instance DecidableEq for Except

/-- A successful bisection result was accepted because its residual was within
tolerance: the root finder never returns a value whose residual it has not
checked. -/
theorem bisectE_ok_residual (f : ℚ → Except ModelError ℚ) (inc : Bool)
    (tol : ℚ) :
    ∀ (fuel : ℕ) (lo hi x : ℚ), bisectE f inc tol fuel lo hi = .ok x →
      ∃ v, f x = .ok v ∧ |v| ≤ tol := by
  intro fuel
  induction fuel with
  | zero =>
    intro lo hi x h
    rw [bisectE] at h
    split at h <;> exact absurd h (by simp)
  | succ fuel ih =>
    intro lo hi x h
    rw [bisectE] at h
    split at h
    · exact absurd h (by simp)
    next v hf =>
      by_cases habs : |v| ≤ tol
      · rw [if_pos habs] at h
        cases h
        exact ⟨v, hf, habs⟩
      · rw [if_neg habs] at h
        by_cases hv : 0 < v
        · rw [if_pos hv] at h
          cases inc with
          | true => exact ih _ _ _ h
          | false => exact ih _ _ _ h
        · rw [if_neg hv] at h
          cases inc with
          | true => exact ih _ _ _ h
          | false => exact ih _ _ _ h

/-- A successful bisection result lies strictly inside the initial bracket. -/
theorem bisectE_ok_mem (f : ℚ → Except ModelError ℚ) (inc : Bool) (tol : ℚ) :
    ∀ (fuel : ℕ) (lo hi x : ℚ), lo < hi →
      bisectE f inc tol fuel lo hi = .ok x → lo < x ∧ x < hi := by
  intro fuel
  induction fuel with
  | zero =>
    intro lo hi x _ h
    rw [bisectE] at h
    split at h <;> exact absurd h (by simp)
  | succ fuel ih =>
    intro lo hi x hlt h
    have hmidlo : lo < (lo + hi) / 2 := by linarith
    have hmidhi : (lo + hi) / 2 < hi := by linarith
    rw [bisectE] at h
    split at h
    · exact absurd h (by simp)
    next v hf =>
      by_cases habs : |v| ≤ tol
      · rw [if_pos habs] at h
        cases h
        exact ⟨hmidlo, hmidhi⟩
      · rw [if_neg habs] at h
        by_cases hv : 0 < v
        · rw [if_pos hv] at h
          cases inc with
          | true =>
            obtain ⟨h1, h2⟩ := ih _ _ _ hmidlo h
            exact ⟨h1, h2.trans hmidhi⟩
          | false =>
            obtain ⟨h1, h2⟩ := ih _ _ _ hmidhi h
            exact ⟨hmidlo.trans h1, h2⟩
        · rw [if_neg hv] at h
          cases inc with
          | true =>
            obtain ⟨h1, h2⟩ := ih _ _ _ hmidhi h
            exact ⟨hmidlo.trans h1, h2⟩
          | false =>
            obtain ⟨h1, h2⟩ := ih _ _ _ hmidlo h
            exact ⟨h1, h2.trans hmidhi⟩

/-- The amortization starts at the full initial principal. -/
theorem debtBalance_zero (D0 r : ℚ) (n : ℕ) (hr : 0 ≤ r) (hn : 0 < n) :
    debtBalance D0 r n 0 = D0 := by
  rw [debtBalance]
  split
  · field_simp
  next hr0 =>
    have h1r : (1:ℚ) < 1 + r := by
      rcases lt_or_eq_of_le hr with h | h
      · linarith
      · exact absurd h.symm hr0
    have hpow : (1:ℚ) < (1 + r) ^ n := one_lt_pow₀ h1r hn.ne'
    rw [pow_zero, mul_div_assoc, div_self (by linarith), mul_one]

/-- The amortization retires the debt exactly at the end of year `n`. -/
theorem debtBalance_last (D0 r : ℚ) (n : ℕ) : debtBalance D0 r n n = 0 := by
  rw [debtBalance]
  split <;> simp

/-- The outstanding balance of the level-payment amortization is never
negative. -/
theorem debtBalance_nonneg (D0 r : ℚ) (n t : ℕ) (hD : 0 ≤ D0) (hr : 0 ≤ r)
    (ht : t ≤ n) : 0 ≤ debtBalance D0 r n t := by
  rw [debtBalance]
  split
  · apply div_nonneg _ (by positivity)
    have : (t:ℚ) ≤ (n:ℚ) := by exact_mod_cast ht
    nlinarith
  next hr0 =>
    have h1r : (1:ℚ) < 1 + r := by
      rcases lt_or_eq_of_le hr with h | h
      · linarith
      · exact absurd h.symm hr0
    have hpow : (1 + r) ^ t ≤ (1 + r) ^ n := pow_le_pow_right₀ h1r.le ht
    have hden : (0:ℚ) ≤ (1 + r) ^ n - 1 := by
      have : (1:ℚ) ≤ (1 + r) ^ n := one_le_pow₀ h1r.le
      linarith
    apply div_nonneg _ hden
    nlinarith

/-- The outstanding balance of the level-payment amortization never
increases. -/
theorem debtBalance_antitone (D0 r : ℚ) (n s t : ℕ) (hD : 0 ≤ D0) (hr : 0 ≤ r)
    (hst : s ≤ t) : debtBalance D0 r n t ≤ debtBalance D0 r n s := by
  have hc : ((s:ℚ)) ≤ (t:ℚ) := by exact_mod_cast hst
  rcases Nat.eq_zero_or_pos n with hn | hn
  · subst hn
    rw [debtBalance, debtBalance]
    split
    · simp
    · simp
  · rw [debtBalance, debtBalance]
    split
    · have hn0 : (0:ℚ) < (n:ℚ) := by exact_mod_cast hn
      have hnum : D0 * ((n:ℚ) - t) ≤ D0 * ((n:ℚ) - s) := by nlinarith
      exact (div_le_div_right hn0).mpr hnum
    next hr0 =>
      have h1r : (1:ℚ) < 1 + r := by
        rcases lt_or_eq_of_le hr with h | h
        · linarith
        · exact absurd h.symm hr0
      have hppos : (0:ℚ) < (1 + r) ^ n - 1 := by
        have : (1:ℚ) < (1 + r) ^ n := one_lt_pow₀ h1r hn.ne'
        linarith
      have hpow : (1 + r) ^ s ≤ (1 + r) ^ t := pow_le_pow_right₀ h1r.le hst
      have hnum : D0 * ((1 + r) ^ n - (1 + r) ^ t) ≤
          D0 * ((1 + r) ^ n - (1 + r) ^ s) := by nlinarith
      exact (div_le_div_right hppos).mpr hnum

/-- The end-to-end example of the spec: the assumptions record the notebook
constructs (capital structure unset, `dcsr = 1.3`), with the derived
`capital_cost` the notebook's printed repr shows. -/
def exampleA : SolarPVAssumptions :=
  { capacity_mw := 30, capacity_factor := 97/1000
    capital_expenditure_per_mw := 670000
    o_m_cost_pct_of_capital_cost := 2/100
    debt_pct_of_capital_cost := none, equity_pct_of_capital_cost := none
    cost_of_debt := 4/100, cost_of_equity := 12/100, tax_rate := 25/100
    project_lifetime_years := 20, dcsr := 13/10, capital_cost := 20100000
    tax_adjusted_WACC := none, wacc := none }

/-- Claim C4: for every assumptions record, tariff and debt fraction, the
cashflow generator returns exactly `project_lifetime_years + 1` rows, the
first being the year-0 row whose equity cashflow is the equity outflow
`-(capital_cost * (1 - debt_fraction))`. -/
theorem C4_schedule_length (a : SolarPVAssumptions) (tariff debt_fraction : ℚ) :
    (schedule a tariff debt_fraction).length = a.project_lifetime_years + 1 ∧
    (schedule a tariff debt_fraction)[0]? =
      some (yearRow a tariff debt_fraction 0) ∧
    (yearRow a tariff debt_fraction 0).equity_cashflow =
      -(a.capital_cost * (1 - debt_fraction)) := by
  refine ⟨by simp [schedule], ?_, rfl⟩
  simp [schedule]

/-- Claim C6: in every schedule produced by the cashflow generator (under the
validated sign conditions on the inputs), the remaining debt balance of each
row is non-negative, and the final row's balance is exactly zero. -/
theorem C6_debt_balance_invariant (a : SolarPVAssumptions)
    (tariff debt_fraction : ℚ) (hdf : 0 ≤ debt_fraction)
    (hC : 0 ≤ a.capital_cost) (hr : 0 ≤ a.cost_of_debt)
    (hn : 0 < a.project_lifetime_years) :
    (∀ row ∈ schedule a tariff debt_fraction, 0 ≤ row.debt_balance) ∧
    (schedule a tariff debt_fraction).getLast?.map (fun r => r.debt_balance) =
      some 0 := by
  have hD0 : 0 ≤ debt_fraction * a.capital_cost := mul_nonneg hdf hC
  constructor
  · intro row hrow
    rw [schedule, List.mem_map] at hrow
    obtain ⟨k, hk, hrw⟩ := hrow
    rw [List.mem_range] at hk
    subst hrw
    match k, hk with
    | 0, _ => exact hD0
    | j + 1, hk =>
      show 0 ≤ debtBalance (debt_fraction * a.capital_cost) a.cost_of_debt
        a.project_lifetime_years (j + 1)
      exact debtBalance_nonneg _ _ _ _ hD0 hr (Nat.lt_succ_iff.mp hk)
  · rw [schedule, List.range_succ, List.map_append, List.getLast?_append,
      List.map_singleton, List.getLast?_singleton]
    obtain ⟨m, hm⟩ : ∃ m, a.project_lifetime_years = m + 1 :=
      ⟨a.project_lifetime_years - 1, by omega⟩
    have hz : (yearRow a tariff debt_fraction
        a.project_lifetime_years).debt_balance = 0 := by
      rw [hm]
      show debtBalance (debt_fraction * a.capital_cost) a.cost_of_debt
        a.project_lifetime_years (m + 1) = 0
      rw [hm]
      exact debtBalance_last _ _ _
    simp [hz]

/-- Witness for claim C6 at the notebook's concrete inputs. -/
theorem C6_debt_balance_invariant_witness :
    (∀ row ∈ schedule exampleA 81 (87/100), 0 ≤ row.debt_balance) ∧
    (schedule exampleA 81 (87/100)).getLast?.map (fun r => r.debt_balance) =
      some 0 :=
  C6_debt_balance_invariant exampleA 81 (87/100) (by norm_num)
    (by norm_num [exampleA]) (by norm_num [exampleA]) (by norm_num [exampleA])

/-- A minimal specified-structure record used to exercise the solvers on
inputs where every root is hit exactly: one-year life, unit capacity factor,
capital cost 8760, no operating cost, no debt cost, no tax, cost of equity
100 percent, debt and equity fractions both one half. -/
def tinyA : SolarPVAssumptions :=
  { capacity_mw := 1, capacity_factor := 1, capital_expenditure_per_mw := 8760
    o_m_cost_pct_of_capital_cost := 0, debt_pct_of_capital_cost := some (1/2)
    equity_pct_of_capital_cost := some (1/2), cost_of_debt := 0
    cost_of_equity := 1, tax_rate := 0, project_lifetime_years := 1
    dcsr := 1, capital_cost := 8760, tax_adjusted_WACC := none, wacc := none }

/-- A solver configuration bracketing the tariff in `[0, 3]` and the IRR in
`[0, 2]`, under which `tinyA`-style inputs converge at the first midpoint. -/
def cfgW : SolverConfig :=
  { maxIter := 100, tariffTol := 1/1000000, dscrTol := 1/100000000
    irrTol := 1/1000000, irrLo := 0, irrHi := 2, tariffHi := 3 }

section
attribute [local semireducible] Rat.add Rat.mul Rat.sub Rat.inv

/-- Claim C5: constructing assumptions with `capacity_factor = 0` raises a
ValidationError, constructing them with a 0.6/0.6 debt and equity split
raises a ValidationError, and any construction with `capacity_factor = 0`
fails with a ValidationError whatever the other fields are, so zero energy
output never reaches the tariff solver. -/
theorem C5_validation_errors :
    (mkAssumptions 30 0 670000 (2/100) none none (4/100) (12/100) (25/100) 20
      (13/10) = .error (.validation "capacity_factor")) ∧
    (mkAssumptions 30 (97/1000) 670000 (2/100) (some (6/10)) (some (6/10))
      (4/100) (12/100) (25/100) 20 (13/10) =
      .error (.validation "debt_equity_split")) ∧
    ∀ (cm cx om : ℚ) (dp ep : Option ℚ) (rd re tr : ℚ) (n : ℕ) (dc : ℚ),
      ∃ fld, mkAssumptions cm 0 cx om dp ep rd re tr n dc =
        .error (.validation fld) := by
  refine ⟨by decide, by decide, ?_⟩
  intro cm cx om dp ep rd re tr n dc
  by_cases h : 0 < cm
  · refine ⟨"capacity_factor", ?_⟩
    rw [mkAssumptions, if_neg (by simpa using h), if_pos (by norm_num)]
  · refine ⟨"capacity_mw", ?_⟩
    rw [mkAssumptions, if_pos (by simpa using h)]

end

/-- A successful construction returns exactly the record built from the raw
fields: every validated field is stored unchanged, the capital structure is
the derived pair, `capital_cost` is the product, and the WACC fields are
unset. -/
theorem mkAssumptions_ok (cm cf cx om : ℚ) (dp ep : Option ℚ)
    (rd re tr : ℚ) (n : ℕ) (dc : ℚ) (a : SolarPVAssumptions)
    (h : mkAssumptions cm cf cx om dp ep rd re tr n dc = .ok a) :
    a = { capacity_mw := cm, capacity_factor := cf
          capital_expenditure_per_mw := cx
          o_m_cost_pct_of_capital_cost := om
          debt_pct_of_capital_cost := (deriveStructure dp ep).1
          equity_pct_of_capital_cost := (deriveStructure dp ep).2
          cost_of_debt := rd, cost_of_equity := re, tax_rate := tr
          project_lifetime_years := n, dcsr := dc, capital_cost := cm * cx
          tax_adjusted_WACC := none, wacc := none } := by
  rw [mkAssumptions] at h
  by_cases h1 : ¬(0 < cm)
  · rw [if_pos h1] at h; exact absurd h (by simp)
  rw [if_neg h1] at h
  by_cases h2 : ¬(0 < cf ∧ cf ≤ 1)
  · rw [if_pos h2] at h; exact absurd h (by simp)
  rw [if_neg h2] at h
  by_cases h3 : ¬(0 < cx)
  · rw [if_pos h3] at h; exact absurd h (by simp)
  rw [if_neg h3] at h
  by_cases h4 : ¬(0 ≤ om)
  · rw [if_pos h4] at h; exact absurd h (by simp)
  rw [if_neg h4] at h
  by_cases h5 : fractionInUnit dp = false
  · rw [if_pos h5] at h; exact absurd h (by simp)
  rw [if_neg h5] at h
  by_cases h6 : fractionInUnit ep = false
  · rw [if_pos h6] at h; exact absurd h (by simp)
  rw [if_neg h6] at h
  by_cases h7 : splitSumsToOne dp ep = false
  · rw [if_pos h7] at h; exact absurd h (by simp)
  rw [if_neg h7] at h
  by_cases h8 : ¬(0 ≤ rd)
  · rw [if_pos h8] at h; exact absurd h (by simp)
  rw [if_neg h8] at h
  by_cases h9 : ¬(0 ≤ re)
  · rw [if_pos h9] at h; exact absurd h (by simp)
  rw [if_neg h9] at h
  by_cases h10 : ¬(0 ≤ tr ∧ tr < 1)
  · rw [if_pos h10] at h; exact absurd h (by simp)
  rw [if_neg h10] at h
  by_cases h11 : ¬(0 < n)
  · rw [if_pos h11] at h; exact absurd h (by simp)
  rw [if_neg h11] at h
  by_cases h12 : ¬(0 < dc)
  · rw [if_pos h12] at h; exact absurd h (by simp)
  rw [if_neg h12] at h
  simp only [Except.ok.injEq] at h
  exact h.symm

/-- Claim C10: constructing assumptions with neither capital-structure field
supplied populates `capital_cost = capacity_mw * capital_expenditure_per_mw`
immediately, while the capital-structure fields and both WACC fields remain
unset on the constructed record. -/
theorem C10_construction_defaults (cm cf cx om rd re tr : ℚ) (n : ℕ)
    (dc : ℚ) (a : SolarPVAssumptions)
    (h : mkAssumptions cm cf cx om none none rd re tr n dc = .ok a) :
    a.capital_cost = cm * cx ∧ a.debt_pct_of_capital_cost = none ∧
    a.equity_pct_of_capital_cost = none ∧ a.wacc = none ∧
    a.tax_adjusted_WACC = none := by
  obtain rfl := mkAssumptions_ok cm cf cx om none none rd re tr n dc a h
  exact ⟨rfl, rfl, rfl, rfl, rfl⟩

section
attribute [local semireducible] Rat.add Rat.mul Rat.sub Rat.inv

/-- Witness for claim C10 at the notebook's construction call. -/
theorem C10_construction_defaults_witness :
    exampleA.capital_cost = 30 * 670000 ∧
    exampleA.debt_pct_of_capital_cost = none ∧
    exampleA.equity_pct_of_capital_cost = none ∧ exampleA.wacc = none ∧
    exampleA.tax_adjusted_WACC = none :=
  C10_construction_defaults 30 (97/1000) 670000 (2/100) (4/100) (12/100)
    (25/100) 20 (13/10) exampleA (by decide)

end

/-- Claim C3 (amended): the computation is a pure function of the input
record and returns a fresh adjusted record: whenever
`calculate_cashflow_for_renewable_project` succeeds, the adjusted record
agrees with the input on every supplied field and on the construction-time
`capital_cost`, and carries the capital structure and both WACC fields
populated.  The input record itself is never modified. -/
theorem C3_adjusted_record (a : SolarPVAssumptions) (tariff : ℚ)
    (cfg : SolverConfig) (s : List YearRow) (i t2 : ℚ)
    (adj : SolarPVAssumptions)
    (h : calculate_cashflow_for_renewable_project a tariff cfg =
      .ok (s, i, t2, adj)) :
    adj.capacity_mw = a.capacity_mw ∧
    adj.capacity_factor = a.capacity_factor ∧
    adj.capital_expenditure_per_mw = a.capital_expenditure_per_mw ∧
    adj.o_m_cost_pct_of_capital_cost = a.o_m_cost_pct_of_capital_cost ∧
    adj.cost_of_debt = a.cost_of_debt ∧
    adj.cost_of_equity = a.cost_of_equity ∧
    adj.tax_rate = a.tax_rate ∧
    adj.project_lifetime_years = a.project_lifetime_years ∧
    adj.dcsr = a.dcsr ∧
    adj.capital_cost = a.capital_cost ∧
    adj.debt_pct_of_capital_cost.isSome ∧
    adj.equity_pct_of_capital_cost.isSome ∧
    adj.wacc.isSome ∧
    adj.tax_adjusted_WACC.isSome := by
  rw [calculate_cashflow_for_renewable_project] at h
  split at h
  · exact absurd h (by simp)
  · split at h
    · exact absurd h (by simp)
    · simp only [Except.ok.injEq, Prod.mk.injEq] at h
      obtain ⟨-, -, -, h4⟩ := h
      subst h4
      exact ⟨rfl, rfl, rfl, rfl, rfl, rfl, rfl, rfl, rfl, rfl, rfl, rfl, rfl,
        rfl⟩

section
attribute [local semireducible] Rat.add Rat.mul Rat.sub Rat.inv

/-- Witness for claim C3 at a concrete input where the computation
succeeds. -/
theorem C3_adjusted_record_witness :
    (adjustedAssumptions tinyA (1/2)).capacity_mw = tinyA.capacity_mw ∧
    (adjustedAssumptions tinyA (1/2)).capacity_factor = tinyA.capacity_factor ∧
    (adjustedAssumptions tinyA (1/2)).capital_expenditure_per_mw =
      tinyA.capital_expenditure_per_mw ∧
    (adjustedAssumptions tinyA (1/2)).o_m_cost_pct_of_capital_cost =
      tinyA.o_m_cost_pct_of_capital_cost ∧
    (adjustedAssumptions tinyA (1/2)).cost_of_debt = tinyA.cost_of_debt ∧
    (adjustedAssumptions tinyA (1/2)).cost_of_equity = tinyA.cost_of_equity ∧
    (adjustedAssumptions tinyA (1/2)).tax_rate = tinyA.tax_rate ∧
    (adjustedAssumptions tinyA (1/2)).project_lifetime_years =
      tinyA.project_lifetime_years ∧
    (adjustedAssumptions tinyA (1/2)).dcsr = tinyA.dcsr ∧
    (adjustedAssumptions tinyA (1/2)).capital_cost = tinyA.capital_cost ∧
    (adjustedAssumptions tinyA (1/2)).debt_pct_of_capital_cost.isSome ∧
    (adjustedAssumptions tinyA (1/2)).equity_pct_of_capital_cost.isSome ∧
    (adjustedAssumptions tinyA (1/2)).wacc.isSome ∧
    (adjustedAssumptions tinyA (1/2)).tax_adjusted_WACC.isSome :=
  C3_adjusted_record tinyA (3/2) cfgW (schedule tinyA (3/2) (1/2)) 1 (3/2)
    (adjustedAssumptions tinyA (1/2)) (by decide)

/-- Counterexample to claim C3 as stated: the derived `capital_cost` is
already populated on the input record at construction time (as the
notebook's printed repr shows), not only on the adjusted record returned by
the computation. -/
theorem C3_capital_cost_at_construction :
    ∃ a, mkAssumptions 30 (97/1000) 670000 (2/100) none none (4/100)
      (12/100) (25/100) 20 (13/10) = .ok a ∧ a.capital_cost = 20100000 ∧
      a.wacc = none ∧ a.tax_adjusted_WACC = none ∧
      a.debt_pct_of_capital_cost = none :=
  ⟨exampleA, by decide, by decide, rfl, rfl, rfl⟩

end

/-- A successful IRR computation returns a rate at which the net present
value of the equity cashflows is within the configured tolerance of zero. -/
theorem computeIRR_ok_npv (a : SolarPVAssumptions) (tariff debt_fraction : ℚ)
    (cfg : SolverConfig) (i : ℚ)
    (h : computeIRR a tariff debt_fraction cfg = .ok i) :
    |npvF i (equityCF a tariff debt_fraction)
      (a.project_lifetime_years + 1)| ≤ cfg.irrTol := by
  obtain ⟨v, hv, habs⟩ := bisectE_ok_residual _ _ _ _ _ _ _ h
  simp only [Except.ok.injEq] at hv
  rwa [hv]

/-- A successful debt-sizing run either capped the debt fraction at 1 because
the target DSCR is met there with margin, or found a fraction strictly inside
`(0, 1)` whose minimum DSCR is within tolerance of the target. -/
theorem solveDebtFraction_ok (a : SolarPVAssumptions) (tariff : ℚ)
    (cfg : SolverConfig) (df : ℚ)
    (h : solveDebtFraction a tariff cfg = .ok df) :
    (df = 1 ∧ ∃ m1, minDSCR (schedule a tariff 1) = some m1 ∧ a.dcsr ≤ m1) ∨
    (0 < df ∧ df < 1 ∧
      (∃ m1, minDSCR (schedule a tariff 1) = some m1 ∧ ¬ a.dcsr ≤ m1) ∧
      ∃ m, minDSCR (schedule a tariff df) = some m ∧
        |m - a.dcsr| ≤ cfg.dscrTol) := by
  rw [solveDebtFraction] at h
  split at h
  next m1 hm1 =>
    by_cases hcap : a.dcsr ≤ m1
    · rw [if_pos hcap] at h
      simp only [Except.ok.injEq] at h
      exact .inl ⟨h.symm, m1, hm1, hcap⟩
    · rw [if_neg hcap] at h
      obtain ⟨hlo, hhi⟩ := bisectE_ok_mem _ _ _ _ _ _ _ (by norm_num) h
      obtain ⟨v, hv, habs⟩ := bisectE_ok_residual _ _ _ _ _ _ _ h
      rw [dscrResidual] at hv
      refine .inr ⟨hlo, hhi, ⟨m1, hm1, hcap⟩, ?_⟩
      split at hv
      next m hm =>
        simp only [Except.ok.injEq] at hv
        exact ⟨m, hm, hv ▸ habs⟩
      · exact absurd hv (by simp)
  · exact absurd h (by simp)

/-- A successful schedule build returns the schedule, IRR, echoed tariff and
adjusted record produced from the resolved debt fraction. -/
theorem calculate_cashflow_ok (a : SolarPVAssumptions) (tariff : ℚ)
    (cfg : SolverConfig) (s : List YearRow) (i t2 : ℚ)
    (adj : SolarPVAssumptions)
    (h : calculate_cashflow_for_renewable_project a tariff cfg =
      .ok (s, i, t2, adj)) :
    ∃ df, resolveDebtFraction a tariff cfg = .ok df ∧
      s = schedule a tariff df ∧ t2 = tariff ∧
      adj = adjustedAssumptions a df ∧
      computeIRR a tariff df cfg = .ok i := by
  rw [calculate_cashflow_for_renewable_project] at h
  split at h
  · exact absurd h (by simp)
  next df hdf =>
    split at h
    · exact absurd h (by simp)
    next i2 hi2 =>
      simp only [Except.ok.injEq, Prod.mk.injEq] at h
      obtain ⟨h1, h2, h3, h4⟩ := h
      exact ⟨df, hdf, h1.symm, h3.symm, h4.symm, h2 ▸ hi2⟩

/-- Claim C1: whenever the tariff solver converges (with its tolerance at
most 1e-4 in IRR units), re-running the cashflow computation at the returned
LCOE tariff succeeds with the same tariff echoed back, and the post-tax
equity IRR it computes equals the cost of equity to within 1e-4. -/
theorem C1_lcoe_fixed_point (a : SolarPVAssumptions) (cfg : SolverConfig)
    (t : ℚ) (htol : cfg.tariffTol ≤ 1/10000)
    (h : calculate_lcoe a cfg = .ok t) :
    ∃ s i adj,
      calculate_cashflow_for_renewable_project a t cfg = .ok (s, i, t, adj) ∧
      |i - a.cost_of_equity| ≤ 1/10000 := by
  obtain ⟨v, hv, habs⟩ := bisectE_ok_residual _ _ _ _ _ _ _ h
  rw [tariffResidual] at hv
  cases hc : calculate_cashflow_for_renewable_project a t cfg with
  | error e => rw [hc] at hv; exact absurd hv (by simp [Except.map])
  | ok r =>
    rw [hc] at hv
    simp only [Except.map, Except.ok.injEq] at hv
    obtain ⟨s, i, t2, adj⟩ := r
    obtain ⟨df, -, -, ht2, -, -⟩ := calculate_cashflow_ok a t cfg s i t2 adj hc
    subst ht2
    refine ⟨s, i, adj, rfl, ?_⟩
    rw [hv]
    exact habs.trans htol

section
attribute [local semireducible] Rat.add Rat.mul Rat.sub Rat.inv

/-- Witness for claim C1: on `tinyA` under `cfgW` the tariff solver returns
3/2 and the recomputed IRR matches the cost of equity exactly. -/
theorem C1_lcoe_fixed_point_witness :
    ∃ s i adj, calculate_cashflow_for_renewable_project tinyA (3/2) cfgW =
      .ok (s, i, 3/2, adj) ∧ |i - tinyA.cost_of_equity| ≤ 1/10000 :=
  C1_lcoe_fixed_point tinyA cfgW (3/2) (by norm_num [cfgW]) (by decide)

end

/-- Claim C2 (amended): when the capital structure is unset and the schedule
computation succeeds, the adjusted record carries the solver's debt fraction,
and either that fraction was capped at 1 with the DSCR target met with
margin there, or the minimum annual DSCR of the schedule at that fraction
equals the target `dcsr` to within 1e-3 (given a solver tolerance of at most
1e-3). -/
theorem C2_dscr_fixed_point (a : SolarPVAssumptions) (tariff : ℚ)
    (cfg : SolverConfig) (s : List YearRow) (i t2 : ℚ)
    (adj : SolarPVAssumptions)
    (hd : a.debt_pct_of_capital_cost = none)
    (he : a.equity_pct_of_capital_cost = none)
    (htol : cfg.dscrTol ≤ 1/1000)
    (h : calculate_cashflow_for_renewable_project a tariff cfg =
      .ok (s, i, t2, adj)) :
    ∃ df, adj.debt_pct_of_capital_cost = some df ∧
      ((df = 1 ∧ ∃ m1, minDSCR (schedule a tariff 1) = some m1 ∧
          a.dcsr ≤ m1) ∨
        ∃ m, minDSCR (schedule a tariff df) = some m ∧
          |m - a.dcsr| ≤ 1/1000) := by
  obtain ⟨df, hdf, -, -, hadj, -⟩ :=
    calculate_cashflow_ok a tariff cfg s i t2 adj h
  rw [resolveDebtFraction, hd, he] at hdf
  subst hadj
  refine ⟨df, rfl, ?_⟩
  rcases solveDebtFraction_ok a tariff cfg df hdf with hcap | ⟨-, -, -, m, hm, hb⟩
  · exact .inl hcap
  · exact .inr ⟨m, hm, hb.trans htol⟩

/-- The capped debt-sizing example: target DSCR 1/2 is met with margin even
at full debt, so the solver caps the debt fraction at 1. -/
def capA : SolarPVAssumptions :=
  { capacity_mw := 1, capacity_factor := 1, capital_expenditure_per_mw := 8760
    o_m_cost_pct_of_capital_cost := 0, debt_pct_of_capital_cost := none
    equity_pct_of_capital_cost := none, cost_of_debt := 0
    cost_of_equity := 1, tax_rate := 0, project_lifetime_years := 1
    dcsr := 1/2, capital_cost := 8760, tax_adjusted_WACC := none, wacc := none }

/-- As `capA` but with target DSCR 3, reached exactly at debt fraction 1/2. -/
def dscrA : SolarPVAssumptions :=
  { capacity_mw := 1, capacity_factor := 1, capital_expenditure_per_mw := 8760
    o_m_cost_pct_of_capital_cost := 0, debt_pct_of_capital_cost := none
    equity_pct_of_capital_cost := none, cost_of_debt := 0
    cost_of_equity := 1, tax_rate := 0, project_lifetime_years := 1
    dcsr := 3, capital_cost := 8760, tax_adjusted_WACC := none, wacc := none }

/-- As `cfgW` but with the tariff bracketed in `[0, 2]`. -/
def cfgC : SolverConfig :=
  { maxIter := 100, tariffTol := 1/1000000, dscrTol := 1/100000000
    irrTol := 1/1000000, irrLo := 0, irrHi := 2, tariffHi := 2 }

section
attribute [local semireducible] Rat.add Rat.mul Rat.sub Rat.inv

/-- Witness for claim C2: on `dscrA` under `cfgW` the full computation
succeeds at tariff 3/2 with solved debt fraction 1/2, whose minimum DSCR
equals the target 3 exactly. -/
theorem C2_dscr_fixed_point_witness :
    ∃ df, (adjustedAssumptions dscrA (1/2)).debt_pct_of_capital_cost =
      some df ∧
      ((df = 1 ∧ ∃ m1, minDSCR (schedule dscrA (3/2) 1) = some m1 ∧
          dscrA.dcsr ≤ m1) ∨
        ∃ m, minDSCR (schedule dscrA (3/2) df) = some m ∧
          |m - dscrA.dcsr| ≤ 1/1000) :=
  C2_dscr_fixed_point dscrA (3/2) cfgW (schedule dscrA (3/2) (1/2)) 1 (3/2)
    (adjustedAssumptions dscrA (1/2)) rfl rfl (by norm_num [cfgW]) (by decide)

/-- Counterexample to claim C2 as stated: on `capA` under `cfgC` the whole
computation (including the tariff solver) succeeds, the debt-sizing solver
returns the capped debt fraction 1, and the minimum annual DSCR there is 1,
off the target 1/2 by far more than 1e-3. -/
theorem C2_dscr_fixed_point_counterexample :
    calculate_lcoe capA cfgC = .ok 1 ∧
    calculate_cashflow_for_renewable_project capA 1 cfgC =
      .ok (schedule capA 1 1, 1, 1, adjustedAssumptions capA 1) ∧
    (adjustedAssumptions capA 1).debt_pct_of_capital_cost = some 1 ∧
    minDSCR (schedule capA 1 1) = some 1 ∧
    1/1000 < |(1 : ℚ) - capA.dcsr| := by
  refine ⟨by decide, by decide, rfl, by decide, by decide⟩

end

/-- Claim C8: the debt fraction returned by the debt-sizing solver always
lies in `[0, 1]`, and when the target DSCR is still met with margin at full
debt the solver returns the value capped at 1 rather than raising an
error. -/
theorem C8_debt_fraction_bounds (a : SolarPVAssumptions) (tariff : ℚ)
    (cfg : SolverConfig) (df : ℚ)
    (h : solveDebtFraction a tariff cfg = .ok df) :
    0 ≤ df ∧ df ≤ 1 ∧
      ∀ m1, minDSCR (schedule a tariff 1) = some m1 → a.dcsr ≤ m1 →
        df = 1 := by
  rcases solveDebtFraction_ok a tariff cfg df h with
    ⟨hdf1, -⟩ | ⟨hlo, hhi, ⟨m1, hm1, hnot⟩, -⟩
  · subst hdf1
    exact ⟨by norm_num, le_refl 1, fun _ _ _ => rfl⟩
  · refine ⟨hlo.le, hhi.le, fun m1x hm1x hge => ?_⟩
    rw [hm1] at hm1x
    cases hm1x
    exact absurd hge hnot

section
attribute [local semireducible] Rat.add Rat.mul Rat.sub Rat.inv

/-- Witness for claim C8: on `capA` at tariff 1 the solver returns the
capped debt fraction 1. -/
theorem C8_debt_fraction_bounds_witness :
    0 ≤ (1:ℚ) ∧ (1:ℚ) ≤ 1 ∧
      ∀ m1, minDSCR (schedule capA 1 1) = some m1 → capA.dcsr ≤ m1 →
        (1:ℚ) = 1 :=
  C8_debt_fraction_bounds capA 1 cfgC 1 (by decide)

end

/-- The year-0 equity cashflow is the equity outflow. -/
theorem equityCF_zero (a : SolarPVAssumptions) (tariff df : ℚ) :
    equityCF a tariff df 0 = -(a.capital_cost * (1 - df)) := rfl

/-- The operating-year equity cashflow in components. -/
theorem equityCF_succ (a : SolarPVAssumptions) (tariff df : ℚ) (j : ℕ) :
    equityCF a tariff df (j + 1) =
      ebitdaOf a tariff - interestOf a df j - principalOf a df j -
        taxOf a tariff df j := rfl

/-- Interest is non-negative while the debt is within its term. -/
theorem interestOf_nonneg (a : SolarPVAssumptions) (df : ℚ) (j : ℕ)
    (hr : 0 ≤ a.cost_of_debt) (hD : 0 ≤ df * a.capital_cost)
    (hj : j ≤ a.project_lifetime_years) : 0 ≤ interestOf a df j :=
  mul_nonneg hr (debtBalance_nonneg _ _ _ _ hD hr hj)

/-- Principal repayments are non-negative. -/
theorem principalOf_nonneg (a : SolarPVAssumptions) (df : ℚ) (j : ℕ)
    (hr : 0 ≤ a.cost_of_debt) (hD : 0 ≤ df * a.capital_cost) :
    0 ≤ principalOf a df j :=
  sub_nonneg.mpr (debtBalance_antitone _ _ _ _ _ hD hr (Nat.le_succ j))

/-- Tax is non-negative. -/
theorem taxOf_nonneg (a : SolarPVAssumptions) (tariff df : ℚ) (j : ℕ)
    (ht : 0 ≤ a.tax_rate) : 0 ≤ taxOf a tariff df j := by
  rw [taxOf]
  apply mul_nonneg _ ht
  split
  · exact le_refl 0
  next hpos => linarith [not_le.mp hpos]

/-- An operating-year equity cashflow never exceeds the year's EBITDA. -/
theorem equityCF_succ_le_ebitda (a : SolarPVAssumptions) (tariff df : ℚ)
    (j : ℕ) (hr : 0 ≤ a.cost_of_debt) (hD : 0 ≤ df * a.capital_cost)
    (ht : 0 ≤ a.tax_rate) (hj : j ≤ a.project_lifetime_years) :
    equityCF a tariff df (j + 1) ≤ ebitdaOf a tariff := by
  rw [equityCF_succ]
  have h1 := interestOf_nonneg a df j hr hD hj
  have h2 := principalOf_nonneg a df j hr hD
  have h3 := taxOf_nonneg a tariff df j ht
  linarith

/-- On the spec's end-to-end example, any tariff the solver can return
exceeds 1 (indeed it must exceed the break-even tariff of roughly 15.8 per
MWh): at any tariff at most 1, yearly EBITDA is below -376508, every equity
cashflow is non-positive, and the net present value at the accepted rate is
below any IRR acceptance tolerance. -/
theorem calculate_lcoe_exampleA_gt_one (t : ℚ)
    (h : calculate_lcoe exampleA defaultCfg = .ok t) : 1 < t := by
  by_contra hle
  push_neg at hle
  obtain ⟨v, hv, habs⟩ := bisectE_ok_residual _ _ _ _ _ _ _ h
  rw [tariffResidual] at hv
  cases hc : calculate_cashflow_for_renewable_project exampleA t defaultCfg with
  | error e => rw [hc] at hv; exact absurd hv (by simp [Except.map])
  | ok r =>
    rw [hc] at hv
    simp only [Except.map, Except.ok.injEq] at hv
    obtain ⟨s, i, t2, adj⟩ := r
    obtain ⟨df, hdf, -, -, -, hirr⟩ :=
      calculate_cashflow_ok exampleA t defaultCfg s i t2 adj hc
    have hdf2 : solveDebtFraction exampleA t defaultCfg = .ok df := hdf
    have hdfb : 0 ≤ df ∧ df ≤ 1 := by
      rcases solveDebtFraction_ok exampleA t defaultCfg df hdf2 with
        ⟨h1, -⟩ | ⟨h1, h2, -, -⟩
      · exact ⟨by rw [h1]; norm_num, h1.le⟩
      · exact ⟨h1.le, h2.le⟩
    have hnpv := computeIRR_ok_npv exampleA t df defaultCfg i hirr
    simp only at hv
    have habs2 : |i - 12/100| ≤ 1/1000000 := by
      have : exampleA.cost_of_equity = 12/100 := rfl
      rw [this] at hv
      rw [hv]
      exact habs.trans (by norm_num [defaultCfg])
    obtain ⟨hi1, hi2⟩ := abs_le.mp habs2
    have hnpv2 : |npvF i (equityCF exampleA t df) 21| ≤ 1/1000000 := by
      have h21 : exampleA.project_lifetime_years + 1 = 21 := rfl
      rw [h21] at hnpv
      exact hnpv.trans (by norm_num [defaultCfg])
    have hv0 : (0:ℚ) < 1 + i := by linarith
    have hvinv : (0:ℚ) < (1 + i)⁻¹ := inv_pos.mpr hv0
    have hvlb : (100:ℚ)/113 ≤ (1 + i)⁻¹ := by
      have h113 : (1 + i) ≤ 113/100 := by linarith
      calc (100:ℚ)/113 = (113/100)⁻¹ := by norm_num
      _ ≤ (1 + i)⁻¹ := by
        apply inv_le_inv_of_le hv0 h113
    have hEb : ebitdaOf exampleA t ≤ -(1882542/5) := by
      have : ebitdaOf exampleA t = (127458/5) * t - 402000 := by
        rw [ebitdaOf, energyOutput, opexOf]
        show (30:ℚ) * (97/1000) * 8760 * t - 2/100 * 20100000 =
          127458/5 * t - 402000
        ring
      rw [this]
      linarith
    have hCdf : 0 ≤ df * exampleA.capital_cost := by
      have : exampleA.capital_cost = 20100000 := rfl
      rw [this]
      nlinarith [hdfb.1]
    have hterm : ∀ k ∈ Finset.range 21,
        equityCF exampleA t df k * ((1 + i)⁻¹) ^ k ≤ 0 := by
      intro k hk
      rw [Finset.mem_range] at hk
      match k with
      | 0 =>
        rw [equityCF_zero]
        have : (0:ℚ) ≤ exampleA.capital_cost * (1 - df) := by
          have hcc : exampleA.capital_cost = 20100000 := rfl
          rw [hcc]
          nlinarith [hdfb.2]
        simpa using by nlinarith [pow_pos hvinv 0]
      | j + 1 =>
        have hj : j ≤ exampleA.project_lifetime_years := by
          show j ≤ 20
          omega
        have hcf : equityCF exampleA t df (j + 1) ≤ ebitdaOf exampleA t :=
          equityCF_succ_le_ebitda exampleA t df j (by norm_num [exampleA])
            hCdf (by norm_num [exampleA]) hj
        have hcfneg : equityCF exampleA t df (j + 1) ≤ 0 := by linarith
        exact mul_nonpos_of_nonpos_of_nonneg hcfneg (pow_pos hvinv _).le
    have hsum : npvF i (equityCF exampleA t df) 21 ≤
        equityCF exampleA t df 1 * ((1 + i)⁻¹) ^ 1 := by
      rw [npvF]
      have h1mem : (1:ℕ) ∈ Finset.range 21 := by norm_num
      rw [← Finset.sum_erase_add (Finset.range 21) _ h1mem]
      have hrest : ∑ k ∈ (Finset.range 21).erase 1,
          equityCF exampleA t df k * ((1 + i)⁻¹) ^ k ≤ 0 :=
        Finset.sum_nonpos (fun k hk => hterm k (Finset.mem_of_mem_erase hk))
      linarith
    have hcf1 : equityCF exampleA t df 1 ≤ ebitdaOf exampleA t := by
      have := equityCF_succ_le_ebitda exampleA t df 0 (by norm_num [exampleA])
        hCdf (by norm_num [exampleA]) (by norm_num [exampleA])
      simpa using this
    have hE0 : ebitdaOf exampleA t ≤ 0 := by linarith
    have hchain : npvF i (equityCF exampleA t df) 21 ≤
        -(1882542/5) * (100/113) := by
      calc npvF i (equityCF exampleA t df) 21
          ≤ equityCF exampleA t df 1 * ((1 + i)⁻¹) ^ 1 := hsum
      _ ≤ ebitdaOf exampleA t * ((1 + i)⁻¹) ^ 1 := by
          apply mul_le_mul_of_nonneg_right hcf1 (pow_pos hvinv 1).le
      _ ≤ ebitdaOf exampleA t * (100/113) := by
          rw [pow_one]
          exact mul_le_mul_of_nonpos_left hvlb hE0
      _ ≤ -(1882542/5) * (100/113) := by
          apply mul_le_mul_of_nonneg_right hEb (by norm_num)
    have habs3 := neg_abs_le (npvF i (equityCF exampleA t df) 21)
    have : -(1882542/5) * (100/113) < -(1:ℚ)/1000000 := by norm_num
    linarith

/-- Counterexample to claim C9 as stated: on the end-to-end example the
computed lcoe is never approximately 0.80 — any tariff the solver returns
exceeds 1.  (The notebook's captured 0.8079 is the solved
`debt_pct_of_capital_cost`, not the lcoe.) -/
theorem C9_lcoe_not_near_080 :
    ¬ ∃ t, calculate_lcoe exampleA defaultCfg = .ok t ∧ |t - 8/10| ≤ 1/5 := by
  rintro ⟨t, hok, hnear⟩
  have h1 := calculate_lcoe_exampleA_gt_one t hok
  obtain ⟨-, h3⟩ := abs_le.mp hnear
  linarith

/-- The level-payment identity: interest plus principal of any in-term year
equals the constant annuity payment. -/
theorem payment_eq (a : SolarPVAssumptions) (df : ℚ) (j : ℕ)
    (hr : 0 ≤ a.cost_of_debt) (hn : 0 < a.project_lifetime_years) :
    interestOf a df j + principalOf a df j =
      annuityFactor a.cost_of_debt a.project_lifetime_years *
        (df * a.capital_cost) := by
  by_cases hr0 : a.cost_of_debt = 0
  · simp only [interestOf, principalOf, annuityFactor, debtBalance,
      if_pos hr0, hr0]
    have hn0 : ((a.project_lifetime_years : ℚ)) ≠ 0 := by
      exact_mod_cast hn.ne'
    push_cast
    field_simp
    ring
  · simp only [interestOf, principalOf, annuityFactor, debtBalance,
      if_neg hr0]
    have h1r : (1:ℚ) < 1 + a.cost_of_debt := by
      rcases lt_or_eq_of_le hr with h | h
      · linarith
      · exact absurd h.symm hr0
    have hden : ((1 + a.cost_of_debt) ^ a.project_lifetime_years - 1) ≠ 0 := by
      have : (1:ℚ) < (1 + a.cost_of_debt) ^ a.project_lifetime_years :=
        one_lt_pow₀ h1r hn.ne'
      linarith
    field_simp
    ring

/-- The normalized balance shape is at most 1: no balance exceeds the
initial principal. -/
theorem debtBalance_one_le_one (r : ℚ) (n j : ℕ) (hr : 0 ≤ r) (hn : 0 < n) :
    debtBalance 1 r n j ≤ 1 := by
  have h := debtBalance_antitone 1 r n 0 j (by norm_num) hr (Nat.zero_le j)
  rwa [debtBalance_zero 1 r n hr hn] at h

/-- Balances scale linearly in the initial principal. -/
theorem debtBalance_smul (c D0 r : ℚ) (n t : ℕ) :
    debtBalance (c * D0) r n t = c * debtBalance D0 r n t := by
  rw [debtBalance, debtBalance]
  split <;> ring

/-- The positive part is monotone and 1-Lipschitz: adding `d ≥ 0` to the
argument raises it by at most `d`. -/
theorem posPart_mono_lipschitz (x d : ℚ) (hd : 0 ≤ d) :
    (if x ≤ 0 then 0 else x) ≤ (if x + d ≤ 0 then 0 else x + d) ∧
    (if x + d ≤ 0 then 0 else x + d) ≤ (if x ≤ 0 then 0 else x) + d := by
  constructor <;> (split <;> split <;> first | linarith | simp_all | linarith)

/-- Splitting the NPV sum into year 0 and the operating years. -/
theorem npvF_split (r : ℚ) (f : ℕ → ℚ) (n : ℕ) :
    npvF r f (n + 1) =
      (∑ j ∈ Finset.range n, f (j + 1) * ((1 + r)⁻¹) ^ (j + 1)) + f 0 := by
  rw [npvF, Finset.sum_range_succ']
  simp

/-- Tax is monotone in the tariff and its increase is bounded by the tax
rate times the revenue increase. -/
theorem taxOf_tariff_bounds (a : SolarPVAssumptions) (df : ℚ) (j : ℕ)
    (t1 t2 : ℚ) (hE : 0 ≤ energyOutput a) (ht : 0 ≤ a.tax_rate)
    (h12 : t1 ≤ t2) :
    taxOf a t1 df j ≤ taxOf a t2 df j ∧
    taxOf a t2 df j ≤ taxOf a t1 df j +
      a.tax_rate * (energyOutput a * (t2 - t1)) := by
  have hx : taxableOf a t2 df j =
      taxableOf a t1 df j + energyOutput a * (t2 - t1) := by
    rw [taxableOf, taxableOf, ebitdaOf, ebitdaOf]
    ring
  have hd : 0 ≤ energyOutput a * (t2 - t1) := mul_nonneg hE (by linarith)
  obtain ⟨h1, h2⟩ := posPart_mono_lipschitz (taxableOf a t1 df j)
    (energyOutput a * (t2 - t1)) hd
  rw [taxOf, taxOf, hx]
  constructor
  · exact mul_le_mul_of_nonneg_right h1 ht
  · nlinarith [mul_le_mul_of_nonneg_right h2 ht]

/-- The NPV of the equity cashflows at the cost of equity, the exact
residual whose root is the breakeven (LCOE) tariff. -/
def npvAtCostOfEquity (a : SolarPVAssumptions) (tariff df : ℚ) : ℚ :=
  npvF a.cost_of_equity (equityCF a tariff df)
    (a.project_lifetime_years + 1)

/-- The breakeven residual is strictly increasing in the tariff. -/
theorem npvAtCostOfEquity_strictMono (a : SolarPVAssumptions) (df t1 t2 : ℚ)
    (hE : 0 < energyOutput a) (ht0 : 0 ≤ a.tax_rate) (ht1 : a.tax_rate < 1)
    (hre : 0 ≤ a.cost_of_equity) (hn : 0 < a.project_lifetime_years)
    (h12 : t1 < t2) :
    npvAtCostOfEquity a t1 df < npvAtCostOfEquity a t2 df := by
  rw [npvAtCostOfEquity, npvAtCostOfEquity, npvF_split, npvF_split]
  have h0 : equityCF a t1 df 0 = equityCF a t2 df 0 := rfl
  rw [h0]
  have hv : (0:ℚ) < (1 + a.cost_of_equity)⁻¹ := by
    apply inv_pos.mpr
    linarith
  have hterm : ∀ j ∈ Finset.range a.project_lifetime_years,
      equityCF a t1 df (j + 1) * ((1 + a.cost_of_equity)⁻¹) ^ (j + 1) <
      equityCF a t2 df (j + 1) * ((1 + a.cost_of_equity)⁻¹) ^ (j + 1) := by
    intro j _
    apply mul_lt_mul_of_pos_right _ (pow_pos hv _)
    rw [equityCF_succ, equityCF_succ]
    obtain ⟨-, htax⟩ := taxOf_tariff_bounds a df j t1 t2 hE.le ht0 h12.le
    have hEd : (1 - a.tax_rate) * (energyOutput a * (t2 - t1)) > 0 := by
      have := mul_pos hE (sub_pos.mpr h12)
      nlinarith
    rw [ebitdaOf, ebitdaOf]
    nlinarith
  have := Finset.sum_lt_sum_of_nonempty
    (Finset.nonempty_range_iff.mpr hn.ne') hterm
  linarith

/-- The unit-principal level-payment identity. -/
theorem payment_unit (r : ℚ) (n j : ℕ) (hr : 0 ≤ r) (hn : 0 < n) :
    r * debtBalance 1 r n j +
      (debtBalance 1 r n j - debtBalance 1 r n (j + 1)) =
      annuityFactor r n := by
  by_cases hr0 : r = 0
  · simp only [annuityFactor, debtBalance, if_pos hr0, hr0]
    have hn0 : ((n : ℚ)) ≠ 0 := by exact_mod_cast hn.ne'
    push_cast
    field_simp
  · simp only [annuityFactor, debtBalance, if_neg hr0]
    have h1r : (1:ℚ) < 1 + r := by
      rcases lt_or_eq_of_le hr with h | h
      · linarith
      · exact absurd h.symm hr0
    have hden : ((1 + r) ^ n - 1) ≠ 0 := by
      have : (1:ℚ) < (1 + r) ^ n := one_lt_pow₀ h1r hn.ne'
      linarith
    field_simp
    ring

/-- Scalar core of the capital-cost comparison: at a higher capital cost the
operating-year equity cashflow falls by at least
`ΔC * (κ df - τ rd df - τ/n)`-worth per year. -/
theorem capex_term_core (E om rd τ κ df sh sh2 C1 C2 t nInv : ℚ)
    (hpay : rd * sh + (sh - sh2) = κ)
    (hsh0 : 0 ≤ sh) (hsh1 : sh ≤ 1)
    (hom : 0 ≤ om) (hrd : 0 ≤ rd) (ht0 : 0 ≤ τ) (ht1 : τ < 1)
    (hdf0 : 0 ≤ df) (hC : C1 < C2) (hnInv : 0 < nInv) :
    (E * t - om * C2) - rd * (df * C2 * sh) -
        (df * C2 * sh - df * C2 * sh2) -
        (if E * t - om * C2 - rd * (df * C2 * sh) - C2 * nInv ≤ 0 then 0
          else E * t - om * C2 - rd * (df * C2 * sh) - C2 * nInv) * τ ≤
      (E * t - om * C1) - rd * (df * C1 * sh) -
        (df * C1 * sh - df * C1 * sh2) -
        (if E * t - om * C1 - rd * (df * C1 * sh) - C1 * nInv ≤ 0 then 0
          else E * t - om * C1 - rd * (df * C1 * sh) - C1 * nInv) * τ +
      (C2 - C1) * (τ * nInv + df * (τ * rd - κ)) := by
  have hΔ0 : (0:ℚ) < C2 - C1 := by linarith
  have hb0 : 0 ≤ (om + rd * df * sh + nInv) * (C2 - C1) := by
    have : 0 ≤ rd * df * sh := mul_nonneg (mul_nonneg hrd hdf0) hsh0
    nlinarith
  have hx : E * t - om * C2 - rd * (df * C2 * sh) - C2 * nInv =
      (E * t - om * C1 - rd * (df * C1 * sh) - C1 * nInv) -
        (om + rd * df * sh + nInv) * (C2 - C1) := by ring
  obtain ⟨-, h2⟩ := posPart_mono_lipschitz
    (E * t - om * C2 - rd * (df * C2 * sh) - C2 * nInv)
    ((om + rd * df * sh + nInv) * (C2 - C1)) hb0
  rw [show E * t - om * C2 - rd * (df * C2 * sh) - C2 * nInv +
      (om + rd * df * sh + nInv) * (C2 - C1) =
      E * t - om * C1 - rd * (df * C1 * sh) - C1 * nInv from by ring] at h2
  -- h2 : posPart x1 ≤ posPart x2 + b ΔC
  have htax := mul_le_mul_of_nonneg_right h2 ht0
  have homτ : 0 ≤ om * (1 - τ) * (C2 - C1) := by
    apply mul_nonneg (mul_nonneg hom (by linarith)) hΔ0.le
  have hshτ : 0 ≤ τ * (rd * df) * (1 - sh) * (C2 - C1) := by
    apply mul_nonneg (mul_nonneg (mul_nonneg ht0 (mul_nonneg hrd hdf0))
      (by linarith)) hΔ0.le
  have hpayd : (rd * sh + (sh - sh2)) * (df * (C2 - C1)) =
      κ * (df * (C2 - C1)) := by rw [hpay]
  nlinarith [htax, homτ, hshτ, hpayd]

/-- Scalar key positivity for the capital-cost comparison: the per-year
bound summed against the discount weights stays below the year-0 equity
saving. -/
theorem capex_key_pos (τ rd df κ S nQ : ℚ) (ht0 : 0 ≤ τ) (ht1 : τ < 1)
    (hdf0 : 0 ≤ df) (hdf1 : df ≤ 1) (hS0 : 0 < S) (hSn : S ≤ nQ)
    (hn : 0 < nQ) (hshield : τ * (rd + 1 / nQ) < κ) :
    (τ * (1 / nQ) + df * (τ * rd - κ)) * S < 1 - df := by
  have hw : 0 < κ - τ * rd - τ * (1 / nQ) := by
    have hexp : τ * (rd + 1 / nQ) = τ * rd + τ * (1 / nQ) := by ring
    linarith [hexp ▸ hshield]
  have hτn0 : 0 ≤ τ * (1 / nQ) := by positivity
  have hτS : (τ * (1 / nQ)) * S ≤ τ := by
    calc (τ * (1 / nQ)) * S ≤ (τ * (1 / nQ)) * nQ :=
          mul_le_mul_of_nonneg_left hSn hτn0
    _ = τ := by field_simp
  have hid : 1 - df - (τ * (1 / nQ) + df * (τ * rd - κ)) * S =
      (1 - df) * (1 - (τ * (1 / nQ)) * S) +
        df * ((κ - τ * rd - τ * (1 / nQ)) * S) := by ring
  rcases eq_or_lt_of_le hdf1 with hdfe | hdflt
  · subst hdfe
    nlinarith [mul_pos hw hS0]
  · nlinarith [mul_nonneg hdf0 (mul_pos hw hS0).le,
      mul_pos (sub_pos.mpr hdflt)
        (by linarith : (0:ℚ) < 1 - τ * (1 / nQ) * S)]

section
set_option maxHeartbeats 1600000

/-- Raising the capital cost strictly lowers the breakeven residual at any
tariff, provided the tax shield cannot overcome the extra capital and debt
service: `tax_rate * (cost_of_debt + 1/n) < annuityFactor`. -/
theorem npvAtCostOfEquity_capex_lt (a : SolarPVAssumptions) (c2 C2 t df : ℚ)
    (hC2 : a.capital_cost < C2)
    (hom : 0 ≤ a.o_m_cost_pct_of_capital_cost)
    (hrd : 0 ≤ a.cost_of_debt)
    (ht0 : 0 ≤ a.tax_rate) (ht1 : a.tax_rate < 1)
    (hre : 0 ≤ a.cost_of_equity)
    (hdf0 : 0 ≤ df) (hdf1 : df ≤ 1)
    (hn : 0 < a.project_lifetime_years)
    (hshield : a.tax_rate * (a.cost_of_debt +
        1 / a.project_lifetime_years) <
      annuityFactor a.cost_of_debt a.project_lifetime_years) :
    npvAtCostOfEquity
      { a with capital_expenditure_per_mw := c2, capital_cost := C2 } t df <
      npvAtCostOfEquity a t df := by
  obtain ⟨cm, cff, cx, om, dp, ep, rd, re, τ, n, dc, C1, tw, w⟩ := a
  dsimp only at hC2 hom hrd ht0 ht1 hre hn hshield ⊢
  have hnQ : (0:ℚ) < (n:ℚ) := by exact_mod_cast hn
  have hΔ0 : (0:ℚ) < C2 - C1 := by linarith
  have hv0 : (0:ℚ) < (1 + re)⁻¹ := by
    apply inv_pos.mpr
    linarith
  have hcf : ∀ (cx' CC : ℚ) (j : ℕ),
      equityCF ⟨cm, cff, cx', om, dp, ep, rd, re, τ, n, dc, CC, tw, w⟩
          t df (j + 1) =
        (cm * cff * 8760 * t - om * CC) -
          rd * (df * CC * debtBalance 1 rd n j) -
          (df * CC * debtBalance 1 rd n j -
            df * CC * debtBalance 1 rd n (j + 1)) -
          (if cm * cff * 8760 * t - om * CC -
              rd * (df * CC * debtBalance 1 rd n j) - CC * ((n:ℚ))⁻¹ ≤ 0
            then 0
            else cm * cff * 8760 * t - om * CC -
              rd * (df * CC * debtBalance 1 rd n j) - CC * ((n:ℚ))⁻¹) * τ := by
    intro cx' CC j
    rw [equityCF_succ]
    simp only [ebitdaOf, opexOf, energyOutput, interestOf, principalOf,
      taxOf, taxableOf]
    rw [show debtBalance (df * CC) rd n j =
        df * CC * debtBalance 1 rd n j from by
      rw [← debtBalance_smul, mul_one]]
    rw [show debtBalance (df * CC) rd n (j + 1) =
        df * CC * debtBalance 1 rd n (j + 1) from by
      rw [← debtBalance_smul, mul_one]]
    rw [div_eq_mul_inv CC ((n:ℚ))]
  have hterm : ∀ j ∈ Finset.range n,
      equityCF ⟨cm, cff, c2, om, dp, ep, rd, re, τ, n, dc, C2, tw, w⟩
          t df (j + 1) * ((1 + re)⁻¹) ^ (j + 1) ≤
        equityCF ⟨cm, cff, cx, om, dp, ep, rd, re, τ, n, dc, C1, tw, w⟩
          t df (j + 1) * ((1 + re)⁻¹) ^ (j + 1) +
        ((C2 - C1) * (τ * ((n:ℚ))⁻¹ + df * (τ * rd - annuityFactor rd n))) *
          ((1 + re)⁻¹) ^ (j + 1) := by
    intro j hj
    have hjn : j ≤ n := (Finset.mem_range.mp hj).le
    rw [hcf c2 C2 j, hcf cx C1 j]
    have hcore := capex_term_core (cm * cff * 8760) om rd τ
      (annuityFactor rd n) df (debtBalance 1 rd n j)
      (debtBalance 1 rd n (j + 1)) C1 C2 t ((n:ℚ))⁻¹
      (payment_unit rd n j hrd hn)
      (debtBalance_nonneg 1 rd n j (by norm_num) hrd hjn)
      (debtBalance_one_le_one rd n j hrd hn)
      hom hrd ht0 ht1 hdf0 (by linarith) (by positivity)
    have := mul_le_mul_of_nonneg_right hcore (pow_pos hv0 (j + 1)).le
    rw [add_mul] at this
    exact this
  have hsum := Finset.sum_le_sum hterm
  rw [Finset.sum_add_distrib, ← Finset.mul_sum] at hsum
  have hS0 : (0:ℚ) < ∑ j ∈ Finset.range n, ((1 + re)⁻¹) ^ (j + 1) := by
    apply Finset.sum_pos (fun j _ => pow_pos hv0 (j + 1))
    exact Finset.nonempty_range_iff.mpr hn.ne'
  have hSn : (∑ j ∈ Finset.range n, ((1 + re)⁻¹) ^ (j + 1)) ≤ (n:ℚ) := by
    calc ∑ j ∈ Finset.range n, ((1 + re)⁻¹) ^ (j + 1) ≤
        ∑ _j ∈ Finset.range n, (1:ℚ) := by
          apply Finset.sum_le_sum
          intro j _
          apply pow_le_one₀ hv0.le
          rw [inv_le_one_iff₀]
          right
          linarith
    _ = n := by simp
  have hkey := capex_key_pos τ rd df (annuityFactor rd n)
    (∑ j ∈ Finset.range n, ((1 + re)⁻¹) ^ (j + 1)) (n:ℚ)
    ht0 ht1 hdf0 hdf1 hS0 hSn hnQ hshield
  rw [one_div] at hkey
  have hkeyΔ := mul_lt_mul_of_pos_right hkey hΔ0
  rw [npvAtCostOfEquity, npvAtCostOfEquity]
  dsimp only
  rw [npvF_split, npvF_split]
  have h02 : equityCF ⟨cm, cff, c2, om, dp, ep, rd, re, τ, n, dc, C2, tw, w⟩
      t df 0 = -(C2 * (1 - df)) := rfl
  have h01 : equityCF ⟨cm, cff, cx, om, dp, ep, rd, re, τ, n, dc, C1, tw, w⟩
      t df 0 = -(C1 * (1 - df)) := rfl
  rw [h02, h01]
  nlinarith [hsum, hkeyΔ]

end

/-- The breakeven residual depends on the tariff only through revenue: a
record with a different capacity factor has the same residual at the
revenue-equivalent tariff. -/
theorem npvAtCostOfEquity_capacity_factor (a : SolarPVAssumptions)
    (cf2 t df : ℚ) (hE : energyOutput a ≠ 0) :
    npvAtCostOfEquity { a with capacity_factor := cf2 } t df =
      npvAtCostOfEquity a
        ((a.capacity_mw * cf2 * 8760 * t) / energyOutput a) df := by
  obtain ⟨cm, cff, cx, om, dp, ep, rd, re, τ, n, dc, C1, tw, w⟩ := a
  dsimp only at hE ⊢
  have heb : ebitdaOf ⟨cm, cf2, cx, om, dp, ep, rd, re, τ, n, dc, C1, tw, w⟩
      t = ebitdaOf ⟨cm, cff, cx, om, dp, ep, rd, re, τ, n, dc, C1, tw, w⟩
      ((cm * cf2 * 8760 * t) / energyOutput
        ⟨cm, cff, cx, om, dp, ep, rd, re, τ, n, dc, C1, tw, w⟩) := by
    simp only [ebitdaOf, energyOutput, opexOf] at hE ⊢
    rw [mul_div_assoc']
    rw [mul_div_cancel_left₀ _ hE]
  have hcfeq : ∀ k, equityCF
      ⟨cm, cf2, cx, om, dp, ep, rd, re, τ, n, dc, C1, tw, w⟩ t df k =
      equityCF ⟨cm, cff, cx, om, dp, ep, rd, re, τ, n, dc, C1, tw, w⟩
        ((cm * cf2 * 8760 * t) / energyOutput
          ⟨cm, cff, cx, om, dp, ep, rd, re, τ, n, dc, C1, tw, w⟩) df k := by
    intro k
    match k with
    | 0 => rfl
    | j + 1 =>
      rw [equityCF_succ, equityCF_succ, heb]
      have htax : taxOf ⟨cm, cf2, cx, om, dp, ep, rd, re, τ, n, dc, C1, tw, w⟩
          t df j = taxOf ⟨cm, cff, cx, om, dp, ep, rd, re, τ, n, dc, C1, tw, w⟩
          ((cm * cf2 * 8760 * t) / energyOutput
            ⟨cm, cff, cx, om, dp, ep, rd, re, τ, n, dc, C1, tw, w⟩) df j := by
        rw [taxOf, taxOf, taxableOf, taxableOf, heb]
        rfl
      rw [htax]
      rfl
  rw [npvAtCostOfEquity, npvAtCostOfEquity, npvF, npvF]
  apply Finset.sum_congr rfl
  intro k _
  rw [hcfeq k]

/-- Raising the cost of equity pushes the breakeven residual strictly below
zero at the old breakeven tariff, provided the operating-year cashflows
there are non-negative and there is a positive equity outflow. -/
theorem npvAtCostOfEquity_re_lt (a : SolarPVAssumptions) (re2 t df : ℚ)
    (hre1 : 0 ≤ a.cost_of_equity) (hlt : a.cost_of_equity < re2)
    (hC : 0 < a.capital_cost) (hdf1 : df < 1)
    (hn : 0 < a.project_lifetime_years)
    (hcf : ∀ j, j < a.project_lifetime_years → 0 ≤ equityCF a t df (j + 1))
    (hroot : npvAtCostOfEquity a t df = 0) :
    npvAtCostOfEquity { a with cost_of_equity := re2 } t df < 0 := by
  have hveq : ∀ k, equityCF { a with cost_of_equity := re2 } t df k =
      equityCF a t df k := by
    intro k
    match k with
    | 0 => rfl
    | j + 1 => rfl
  have hv10 : (0:ℚ) < (1 + a.cost_of_equity)⁻¹ := by
    apply inv_pos.mpr; linarith
  have hv20 : (0:ℚ) < (1 + re2)⁻¹ := by
    apply inv_pos.mpr; linarith
  have hvlt : (1 + re2)⁻¹ < (1 + a.cost_of_equity)⁻¹ := by
    apply inv_lt_inv_of_lt (by linarith) (by linarith)
  rw [npvAtCostOfEquity, npvF_split] at hroot
  have h0 : equityCF a t df 0 = -(a.capital_cost * (1 - df)) := equityCF_zero a t df
  have h0neg : equityCF a t df 0 < 0 := by
    rw [h0]
    nlinarith
  have hsumpos : 0 < ∑ j ∈ Finset.range a.project_lifetime_years,
      equityCF a t df (j + 1) * ((1 + a.cost_of_equity)⁻¹) ^ (j + 1) := by
    linarith
  have hex : ∃ j0 ∈ Finset.range a.project_lifetime_years,
      (0:ℚ) < equityCF a t df (j0 + 1) *
        ((1 + a.cost_of_equity)⁻¹) ^ (j0 + 1) := by
    by_contra hno
    push_neg at hno
    have : ∑ j ∈ Finset.range a.project_lifetime_years,
        equityCF a t df (j + 1) * ((1 + a.cost_of_equity)⁻¹) ^ (j + 1) ≤ 0 :=
      Finset.sum_nonpos hno
    linarith
  obtain ⟨j0, hj0mem, hj0⟩ := hex
  have hcfj0 : 0 < equityCF a t df (j0 + 1) := by
    by_contra hno
    push_neg at hno
    nlinarith [pow_pos hv10 (j0 + 1)]
  have hlt2 : ∑ j ∈ Finset.range a.project_lifetime_years,
      equityCF a t df (j + 1) * ((1 + re2)⁻¹) ^ (j + 1) <
      ∑ j ∈ Finset.range a.project_lifetime_years,
      equityCF a t df (j + 1) * ((1 + a.cost_of_equity)⁻¹) ^ (j + 1) := by
    apply Finset.sum_lt_sum
    · intro j hjmem
      apply mul_le_mul_of_nonneg_left _ (hcf j (Finset.mem_range.mp hjmem))
      apply pow_le_pow_left hv20.le hvlt.le
    · refine ⟨j0, hj0mem, ?_⟩
      apply mul_lt_mul_of_pos_left _ hcfj0
      apply pow_lt_pow_left hvlt hv20.le
      omega
  rw [npvAtCostOfEquity, npvF_split]
  have hre2c : ({ a with cost_of_equity := re2 } :
      SolarPVAssumptions).cost_of_equity = re2 := rfl
  have hnc : ({ a with cost_of_equity := re2 } :
      SolarPVAssumptions).project_lifetime_years =
      a.project_lifetime_years := rfl
  rw [hre2c, hnc]
  have hfold : ∀ k, equityCF { a with cost_of_equity := re2 } t df k =
      equityCF a t df k := hveq
  rw [show (∑ j ∈ Finset.range a.project_lifetime_years,
      equityCF { a with cost_of_equity := re2 } t df (j + 1) *
        ((1 + re2)⁻¹) ^ (j + 1)) =
      ∑ j ∈ Finset.range a.project_lifetime_years,
      equityCF a t df (j + 1) * ((1 + re2)⁻¹) ^ (j + 1) from
    Finset.sum_congr rfl (fun j _ => by rw [hfold])]
  rw [hfold 0]
  linarith

/-- Claim C7 (amended): the claimed monotonicities hold at the level of the
exact breakeven condition `npvAtCostOfEquity = 0` (the root the tariff
solver approximates), holding the capital structure fixed.  With all other
fields fixed and the usual sign conditions: a strictly larger
capital_expenditure_per_mw strictly raises the breakeven tariff (given the
tax-shield bound `tax_rate * (cost_of_debt + 1/n) < annuityFactor`); a
strictly larger capacity_factor strictly lowers it; a strictly larger
cost_of_equity strictly raises it (given non-negative operating cashflows at
the old breakeven).  The lcoe actually returned by the solver is only
tolerance-accurate, so the strict ordering can fail for it. -/
theorem C7_exact_breakeven_monotonicity :
    (∀ (a : SolarPVAssumptions) (c2 t1 t2 df : ℚ),
      0 < a.capacity_mw → a.capital_expenditure_per_mw < c2 →
      a.capital_cost = a.capacity_mw * a.capital_expenditure_per_mw →
      0 < energyOutput a →
      0 ≤ a.o_m_cost_pct_of_capital_cost → 0 ≤ a.cost_of_debt →
      0 ≤ a.tax_rate → a.tax_rate < 1 → 0 ≤ a.cost_of_equity →
      0 ≤ df → df ≤ 1 → 0 < a.project_lifetime_years →
      a.tax_rate * (a.cost_of_debt + 1 / a.project_lifetime_years) <
        annuityFactor a.cost_of_debt a.project_lifetime_years →
      npvAtCostOfEquity a t1 df = 0 →
      npvAtCostOfEquity { a with capital_expenditure_per_mw := c2, capital_cost := a.capacity_mw * c2 } t2 df = 0 →
      t1 < t2) ∧
    (∀ (a : SolarPVAssumptions) (cf2 t1 t2 df : ℚ),
      0 < a.capacity_mw → a.capacity_factor < cf2 →
      0 < energyOutput a →
      0 ≤ a.tax_rate → a.tax_rate < 1 → 0 ≤ a.cost_of_equity →
      0 < a.project_lifetime_years → 0 < t1 →
      npvAtCostOfEquity a t1 df = 0 →
      npvAtCostOfEquity { a with capacity_factor := cf2 } t2 df = 0 →
      t2 < t1) ∧
    (∀ (a : SolarPVAssumptions) (re2 t1 t2 df : ℚ),
      0 ≤ a.cost_of_equity → a.cost_of_equity < re2 →
      0 < a.capital_cost → 0 ≤ df → df < 1 →
      0 < energyOutput a → 0 ≤ a.tax_rate → a.tax_rate < 1 →
      0 < a.project_lifetime_years →
      (∀ j, j < a.project_lifetime_years →
        0 ≤ equityCF a t1 df (j + 1)) →
      npvAtCostOfEquity a t1 df = 0 →
      npvAtCostOfEquity { a with cost_of_equity := re2 } t2 df = 0 →
      t1 < t2) := by
  refine ⟨?_, ?_, ?_⟩
  · intro a c2 t1 t2 df hcm hcx hcc hE hom hrd ht0 ht1 hre hdf0 hdf1 hn
      hshield hroot1 hroot2
    have hC2 : a.capital_cost < a.capacity_mw * c2 := by
      rw [hcc]
      exact mul_lt_mul_of_pos_left hcx hcm
    have hlt := npvAtCostOfEquity_capex_lt a c2 (a.capacity_mw * c2) t1 df
      hC2 hom hrd ht0 ht1 hre hdf0 hdf1 hn hshield
    rw [hroot1] at hlt
    by_contra hno
    push_neg at hno
    rcases eq_or_lt_of_le hno with heq | hlt2
    · rw [heq] at hroot2
      linarith [hroot2 ▸ hlt]
    · have := npvAtCostOfEquity_strictMono
        { a with capital_expenditure_per_mw := c2, capital_cost := a.capacity_mw * c2 }
        df t2 t1 hE ht0 ht1 hre hn hlt2
      rw [hroot2] at this
      linarith
  · intro a cf2 t1 t2 df hcm hcf hE ht0 ht1 hre hn ht1pos hroot1 hroot2
    have hE2 : energyOutput a < a.capacity_mw * cf2 * 8760 := by
      rw [energyOutput]
      have h8760 : (0:ℚ) < 8760 := by norm_num
      nlinarith
    have htrans := npvAtCostOfEquity_capacity_factor a cf2 t2 df hE.ne'
    rw [hroot2] at htrans
    have hroott : npvAtCostOfEquity a
        ((a.capacity_mw * cf2 * 8760 * t2) / energyOutput a) df = 0 :=
      htrans.symm
    -- uniqueness of the root of the strictly monotone residual
    have huniq : (a.capacity_mw * cf2 * 8760 * t2) / energyOutput a = t1 := by
      by_contra hne
      rcases lt_or_gt_of_ne hne with hlt | hgt
      · have := npvAtCostOfEquity_strictMono a df _ _ hE ht0 ht1 hre hn hlt
        rw [hroott, hroot1] at this
        exact absurd this (lt_irrefl 0)
      · have := npvAtCostOfEquity_strictMono a df _ _ hE ht0 ht1 hre hn hgt
        rw [hroott, hroot1] at this
        exact absurd this (lt_irrefl 0)
    have hEt : a.capacity_mw * cf2 * 8760 * t2 = energyOutput a * t1 := by
      field_simp at huniq
      linarith [huniq]
    nlinarith [hE, hE2, ht1pos]
  · intro a re2 t1 t2 df hre1 hlt hC hdf0 hdf1 hE ht0 ht1 hn hcfnn hroot1
      hroot2
    have hneg := npvAtCostOfEquity_re_lt a re2 t1 df hre1 hlt hC hdf1 hn
      hcfnn hroot1
    by_contra hno
    push_neg at hno
    rcases eq_or_lt_of_le hno with heq | hlt2
    · rw [heq] at hroot2
      linarith [hroot2 ▸ hneg]
    · have := npvAtCostOfEquity_strictMono { a with cost_of_equity := re2 }
        df t2 t1 hE ht0 ht1 (by show (0:ℚ) ≤ re2; linarith) hn hlt2
      rw [hroot2] at this
      linarith

/-- As `tinyA` but with half the capacity factor, for the capacity-factor
ordering witness. -/
def cfHalfA : SolarPVAssumptions :=
  { capacity_mw := 1, capacity_factor := 1/2
    capital_expenditure_per_mw := 8760
    o_m_cost_pct_of_capital_cost := 0, debt_pct_of_capital_cost := some (1/2)
    equity_pct_of_capital_cost := some (1/2), cost_of_debt := 0
    cost_of_equity := 1, tax_rate := 0, project_lifetime_years := 1
    dcsr := 1, capital_cost := 8760, tax_adjusted_WACC := none, wacc := none }

/-- As `tinyA` but with the capital expenditure (and hence capital cost)
raised by 1e-6, small enough to leave every solver acceptance test
unchanged. -/
def tinyA2 : SolarPVAssumptions :=
  { capacity_mw := 1, capacity_factor := 1
    capital_expenditure_per_mw := 8760 + 1/1000000
    o_m_cost_pct_of_capital_cost := 0, debt_pct_of_capital_cost := some (1/2)
    equity_pct_of_capital_cost := some (1/2), cost_of_debt := 0
    cost_of_equity := 1, tax_rate := 0, project_lifetime_years := 1
    dcsr := 1, capital_cost := 8760 + 1/1000000
    tax_adjusted_WACC := none, wacc := none }

section
attribute [local semireducible] Rat.add Rat.mul Rat.sub Rat.inv

/-- Witness for claim C7: the three exact-breakeven orderings at concrete
inputs whose breakeven tariffs are exact rationals. -/
theorem C7_exact_breakeven_monotonicity_witness :
    ((3:ℚ)/2 < 3) ∧ ((3:ℚ)/2 < 3) ∧ ((3:ℚ)/2 < 5/2) :=
  ⟨C7_exact_breakeven_monotonicity.1 tinyA 17520 (3/2) 3 (1/2)
      (by norm_num [tinyA]) (by norm_num [tinyA]) (by norm_num [tinyA])
      (by norm_num [tinyA, energyOutput]) (by norm_num [tinyA])
      (by norm_num [tinyA]) (by norm_num [tinyA]) (by norm_num [tinyA])
      (by norm_num [tinyA]) (by norm_num) (by norm_num) (by norm_num [tinyA])
      (by norm_num [tinyA, annuityFactor]) (by decide) (by decide),
    C7_exact_breakeven_monotonicity.2.1 cfHalfA 1 3 (3/2) (1/2)
      (by norm_num [cfHalfA]) (by norm_num [cfHalfA])
      (by norm_num [cfHalfA, energyOutput]) (by norm_num [cfHalfA])
      (by norm_num [cfHalfA]) (by norm_num [cfHalfA]) (by norm_num [cfHalfA])
      (by norm_num) (by decide) (by decide),
    C7_exact_breakeven_monotonicity.2.2 tinyA 3 (3/2) (5/2) (1/2)
      (by norm_num [tinyA]) (by norm_num [tinyA]) (by norm_num [tinyA])
      (by norm_num) (by norm_num) (by norm_num [tinyA, energyOutput])
      (by norm_num [tinyA]) (by norm_num [tinyA]) (by norm_num [tinyA])
      (by
        intro j hj
        have hj1 : j < 1 := hj
        interval_cases j
        decide) (by decide) (by decide)⟩

/-- Counterexample to claim C7 as stated: raising
`capital_expenditure_per_mw` by 1e-6 (all other supplied fields fixed)
leaves the returned lcoe exactly unchanged at 3/2 — the solver's tolerance
absorbs the change, so the returned value does not strictly increase. -/
theorem C7_returned_lcoe_not_strict :
    tinyA.capital_expenditure_per_mw < tinyA2.capital_expenditure_per_mw ∧
    tinyA2 = { tinyA with
      capital_expenditure_per_mw := 8760 + 1/1000000
      capital_cost := 8760 + 1/1000000 } ∧
    calculate_lcoe tinyA cfgW = .ok (3/2) ∧
    calculate_lcoe tinyA2 cfgW = .ok (3/2) :=
  ⟨by norm_num [tinyA, tinyA2], by decide, by decide, by decide⟩

end

section
attribute [local semireducible] Rat.add Rat.mul Rat.sub Rat.inv
set_option maxHeartbeats 400000000

/-- Claim C9 (amended): on the end-to-end example, construction succeeds
with `capital_cost` = 20,100,000 and every schedule has 21 rows.  Any lcoe
the solver can return exceeds 1, so it is not approximately 0.80 (the
captured 0.8079 is the debt fraction, not the lcoe).  The fixed point near
81.39 per MWh is verified exactly: at tariff 4721359975/58007552 the
cashflow computation succeeds, sizing the debt fraction to
58387333/67108864 (about 0.8701, strictly inside (0,1)), and the post-tax
equity IRR it computes is within 1e-6 of the 12 percent cost of equity. -/
theorem C9_end_to_end :
    (mkAssumptions 30 (97/1000) 670000 (2/100) none none (4/100) (12/100)
      (25/100) 20 (13/10) = .ok exampleA) ∧
    exampleA.capital_cost = 20100000 ∧
    (∀ (t df : ℚ), (schedule exampleA t df).length = 21) ∧
    (match calculate_lcoe exampleA defaultCfg with
      | .ok t => 1 < t
      | .error _ => True) ∧
    calculate_cashflow_for_renewable_project exampleA (4721359975/58007552)
      defaultCfg =
      .ok (schedule exampleA (4721359975/58007552) (58387333/67108864),
        422215855746621/3518437208883200, 4721359975/58007552,
        adjustedAssumptions exampleA (58387333/67108864)) ∧
    (0 < (58387333:ℚ)/67108864 ∧ (58387333:ℚ)/67108864 < 1) ∧
    |(422215855746621:ℚ)/3518437208883200 - 12/100| ≤ 1/1000000 ∧
    (81 < (4721359975:ℚ)/58007552 ∧ (4721359975:ℚ)/58007552 < 82) := by
  refine ⟨by decide, rfl, fun t df => by simp [schedule, exampleA], ?_,
    by decide, by norm_num, by rw [abs_le]; constructor <;> norm_num,
    by norm_num⟩
  cases h : calculate_lcoe exampleA defaultCfg with
  | ok t => exact calculate_lcoe_exampleA_gt_one t h
  | error e => trivial

end
